import Mathlib

/-!
Verification of the query-state core of the market-coins viewer.

The component under study is the single React component in the repository
(the fuller variant keeps the search feature).  It owns eleven pieces of
state (useState hooks), a fetch effect keyed on the five filter fields,
and a handful of event handlers.  Each handler is embedded below as a
pure function on an explicit state record; the fetch lifecycle (the body
of fetchCoins) is embedded as three state transformers applied in the
order the corresponding continuations run.  Numbers that the remote API
may omit are modelled as Option values; the JavaScript semantics of an
undefined numeric field (comparisons are false, Math.abs gives NaN) is
made explicit in the rendering model.
-/

/-- Instrument record of the markets response (interface Coin).  The two
24h price-change fields are modelled as optional because the remote
collaborator may omit them, in which case the JavaScript value is
undefined. -/
structure Coin where
  name : String
  current_price : ℚ
  circulating_supply : ℚ
  image : String
  price_change_24h : Option ℚ
  price_change_percentage_24h : Option ℚ
deriving DecidableEq, Repr

/-- Catalog entry of the bulk coins listing (interface AllCoins). -/
structure AllCoins where
  id : String
  symbol : String
  name : String
deriving DecidableEq, Repr

/-- Argument record of the table change callback
(TablePaginationConfig): both fields may be absent. -/
structure TablePaginationConfig where
  current : Option ℕ
  pageSize : Option ℕ
deriving DecidableEq, Repr

/-- The component state: one field per useState hook, in source order. -/
structure AppState where
  coins : List Coin
  currency : String
  sortOrder : String
  perPage : ℕ
  currentPage : ℕ
  loading : Bool
  error : Option String
  searchInput : String
  searchString : String
  allCoins : List AllCoins
  filteredOptions : List AllCoins
deriving DecidableEq, Repr

/-- Initial state from the useState defaults. -/
def initialState : AppState :=
  { coins := []
    currency := "USD"
    sortOrder := "market_cap_desc"
    perPage := 10
    currentPage := 1
    loading := false
    error := none
    searchInput := ""
    searchString := ""
    allCoins := []
    filteredOptions := [] }

/-- The params object passed to the markets request, as a key-value
list in source order.  The ids key is always present; its value is the
raw searchString, empty string included (the HTTP client omits only
null and undefined values, not empty strings). -/
def queryParams (s : AppState) : List (String × String) :=
  [("vs_currency", s.currency),
   ("order", s.sortOrder),
   ("per_page", toString s.perPage),
   ("page", toString s.currentPage),
   ("sparkline", "false"),
   ("ids", s.searchString)]

/-- The dependency tuple of the fetch effect: the effect re-runs, and
hence a new fetch is dispatched, exactly when this tuple differs from
its value at the previous render. -/
def fetchDeps (s : AppState) : String × ℕ × String × ℕ × String :=
  (s.currency, s.perPage, s.sortOrder, s.currentPage, s.searchString)

/-- A new dispatch occurs after a state transition iff the effect
dependencies changed. -/
def dispatchOccurs (before after : AppState) : Prop :=
  fetchDeps before ≠ fetchDeps after

/-- Start of fetchCoins: setLoading(true). -/
def applyFetchStart (s : AppState) : AppState :=
  { s with loading := true }

/-- Success continuation of fetchCoins: setCoins(response.data),
setError(null), and the finally clause setLoading(false).  Applied
unconditionally whenever a response arrives; the code carries no
sequence number or staleness check. -/
def applyFetchSuccess (data : List Coin) (s : AppState) : AppState :=
  { s with coins := data, error := none, loading := false }

/-- Error message installed by the catch clause. -/
def fetchErrorMessage : String :=
  "Failed to fetch data. Wait a moment and please try again."

/-- Failure continuation of fetchCoins: setError(message) and the
finally clause setLoading(false); coins is not touched.  Applied
unconditionally whenever a request fails. -/
def applyFetchFailure (s : AppState) : AppState :=
  { s with error := some fetchErrorMessage, loading := false }

/-- The render condition of the error banner:
coins.length < 1 && error. -/
def errorMessageShown (s : AppState) : Bool :=
  decide (s.coins.length < 1) && s.error.isSome

/-- handleCurrencyChange: setCurrency(value), verbatim and
unvalidated. -/
def handleCurrencyChange (value : String) (s : AppState) : AppState :=
  { s with currency := value }

/-- handleSortOrderChange: any value other than market_cap_desc is
coerced to market_cap_asc. -/
def handleSortOrderChange (value : String) (s : AppState) : AppState :=
  { s with sortOrder :=
      if value = "market_cap_desc" then "market_cap_desc" else "market_cap_asc" }

/-- handleTableChange: both pagination fields are updated in the same
event handler, each falling back to its current value when absent, so
the re-render (and the fetch effect) observes both updates together. -/
def handleTableChange (p : TablePaginationConfig) (s : AppState) : AppState :=
  { s with currentPage := p.current.getD s.currentPage
           perPage := p.pageSize.getD s.perPage }

/-- The raw state setter for the committed search string, as invoked by
handleSearch and handleClearSearch. -/
def setSearchString (value : String) (s : AppState) : AppState :=
  { s with searchString := value }

/-- The toLowerCase call, embedded character-wise so that it computes
by structural recursion. -/
def jsToLower (s : String) : String :=
  String.mk (s.data.map Char.toLower)

/-- The trim call, dropping leading and trailing whitespace, embedded
character-wise. -/
def jsTrim (s : String) : String :=
  String.mk (((s.data.dropWhile Char.isWhitespace).reverse.dropWhile
    Char.isWhitespace).reverse)

/-- The startsWith call: the second string is a prefix of the first. -/
def jsStartsWith (s p : String) : Bool :=
  p.data.isPrefixOf s.data

/-- handleSearch: exact case-insensitive lookup of the typed input in
the catalog; the first match wins, and a miss commits the empty
string. -/
def handleSearch (s : AppState) : AppState :=
  { s with searchString :=
      match s.allCoins.find? (fun c => jsToLower c.name == jsToLower s.searchInput) with
      | some c => c.id
      | none => "" }

/-- handleClearSearch: resets the input buffer, the committed search
string and the suggestion list. -/
def handleClearSearch (s : AppState) : AppState :=
  { s with searchInput := "", searchString := "", filteredOptions := [] }

/-- handleInputChange: stores the typed value; when its trim is
nonempty, the suggestions are the catalog entries whose lowercased name
starts with the lowercased value, and otherwise the suggestion list is
emptied. -/
def handleInputChange (value : String) (s : AppState) : AppState :=
  { s with searchInput := value
           filteredOptions :=
             if jsTrim value = "" then []
             else s.allCoins.filter
               (fun c => jsStartsWith (jsToLower c.name) (jsToLower value)) }

/-- A JavaScript number as it reaches the percentage renderer: a real
numeric value or NaN. -/
inductive JSNum where
  | num (q : ℚ)
  | nan
deriving DecidableEq, Repr

/-- The comparison price_change_percentage_24h >= 0 under JavaScript
semantics: an undefined field makes the comparison false. -/
def jsGeZero : Option ℚ → Bool
  | none => false
  | some q => decide (0 ≤ q)

/-- Math.abs applied to the field under JavaScript semantics: an
undefined field gives NaN. -/
def jsAbs : Option ℚ → JSNum
  | none => JSNum.nan
  | some q => JSNum.num |q|

/-- The percentage cell render: arrow colour, arrow icon, and the
magnitude that toFixed(2) formats. -/
def renderPriceChangePct (x : Option ℚ) : String × String × JSNum :=
  ((if jsGeZero x then "green" else "red"),
   (if jsGeZero x then "↑" else "↓"),
   jsAbs x)

/-- Sample instrument used in concrete traces. -/
def coinBtc : Coin :=
  { name := "Bitcoin", current_price := 100, circulating_supply := 1000
    image := "btc.png", price_change_24h := some 1
    price_change_percentage_24h := some 1 }

/-- Second sample instrument, distinct from the first. -/
def coinEth : Coin :=
  { name := "Ethereum", current_price := 50, circulating_supply := 500
    image := "eth.png", price_change_24h := some 2
    price_change_percentage_24h := some 2 }

/-- Sample instrument whose 24h fields were omitted by the remote
collaborator. -/
def coinNoPct : Coin :=
  { name := "Mystery", current_price := 1, circulating_supply := 1
    image := "", price_change_24h := none
    price_change_percentage_24h := none }

/-- Sample catalog entry for Bitcoin. -/
def entryBtc : AllCoins :=
  { id := "bitcoin", symbol := "btc", name := "Bitcoin" }

/-- Sample catalog entry for Bitcoin Cash. -/
def entryBch : AllCoins :=
  { id := "bitcoin-cash", symbol := "bch", name := "Bitcoin Cash" }

/-- Sample catalog entry for Ethereum. -/
def entryEth : AllCoins :=
  { id := "ethereum", symbol := "eth", name := "Ethereum" }

/-- Sample catalog entry whose display name begins with a space. -/
def entrySpace : AllCoins :=
  { id := "spacecoin", symbol := "spc", name := " Space" }

/-- Small sample catalog. -/
def catalogBtc : List AllCoins := [entryBtc, entryBch, entryEth]

/-- State whose typed search input matches a catalog entry exactly
(case-insensitively). -/
def stateSearchHit : AppState :=
  { initialState with allCoins := catalogBtc, searchInput := "bitcoin" }

/-- State whose typed search input matches no catalog entry. -/
def stateSearchMiss : AppState :=
  { initialState with allCoins := catalogBtc, searchInput := "dogecoin" }

/-- State whose catalog holds an entry with a leading-space name. -/
def stateSpace : AppState :=
  { initialState with allCoins := [entrySpace] }

/-- State currently displaying a successful result set of ten
instruments. -/
def stateWithTen : AppState :=
  { initialState with coins := List.replicate 10 coinBtc }

/-- In a list split as pre ++ c :: post where nothing in pre satisfies
the predicate and c does, the first hit of find? is c. -/
theorem find_first_of_append {α : Type} (p : α → Bool) (pre post : List α) (c : α)
    (hpre : ∀ x ∈ pre, p x = false) (hc : p c = true) :
    (pre ++ c :: post).find? p = some c := by
  induction pre with
  | nil => simp [List.find?_cons, hc]
  | cons a l ih =>
    have ha : p a = false := hpre a (List.mem_cons_self a l)
    simp only [List.cons_append, List.find?_cons, ha, cond_false]
    exact ih (fun x hx => hpre x (List.mem_cons_of_mem a hx))

/-- C1 counterexample: after two dispatches, dispatch 2 completing
first with data coinBtc and the stale dispatch 1 completing afterwards
with data coinEth, the visible list holds coinEth — the stale, not most
recently dispatched, fetch mutated visible state, and the visible
outcome is not that of dispatch 2. -/
theorem c1_counterexample :
    (applyFetchSuccess [coinEth] (applyFetchSuccess [coinBtc]
        (applyFetchStart (applyFetchStart initialState)))).coins = [coinEth] ∧
    coinEth ≠ coinBtc := by
  exact ⟨rfl, by decide⟩

/-- C1 amended: the code has no sequence gate; completions are applied
unconditionally in arrival order, so visible state reflects the
last-arriving completion even when it belongs to an earlier dispatch.
With two dispatches in flight, the first-arriving result of dispatch 2
becomes visible, and the later-arriving result of stale dispatch 1 then
overwrites it (failure arrivals likewise overwrite the error field). -/
theorem c1_amended_last_arrival_wins (s : AppState) (d₁ d₂ : List Coin) :
    (applyFetchSuccess d₂ (applyFetchStart (applyFetchStart s))).coins = d₂ ∧
    (applyFetchSuccess d₁ (applyFetchSuccess d₂
        (applyFetchStart (applyFetchStart s)))).coins = d₁ ∧
    (applyFetchFailure (applyFetchSuccess d₂
        (applyFetchStart (applyFetchStart s)))).error = some fetchErrorMessage := by
  exact ⟨rfl, rfl, rfl⟩

/-- C2 counterexample: after clearing the search on the initial state,
the dispatched params still carry the ids key, paired with the empty
string — the search parameter is not absent from the descriptor. -/
theorem c2_counterexample :
    ("ids", "") ∈ queryParams (handleClearSearch initialState) ∧
    ("ids", "") ∈ queryParams (setSearchString "" initialState) := by
  decide

/-- C2 amended: the params object always contains the ids key; when
the search term is empty its value is the empty string (the HTTP
client omits only null and undefined, so an empty ids parameter is
sent), never an absent parameter. -/
theorem c2_amended_ids_always_present (s : AppState) :
    ("ids", s.searchString) ∈ queryParams s ∧
    ("ids", "") ∈ queryParams (handleClearSearch s) ∧
    ("ids", "") ∈ queryParams (setSearchString "" s) := by
  refine ⟨?_, ?_, ?_⟩ <;> simp [queryParams, handleClearSearch, setSearchString]

/-- C3 counterexample: an out-of-enum currency replaces the current
value and lands in the dispatched query, and an out-of-enum sort value
also fails to leave the field at its current value (it is coerced to
market_cap_asc while the current value was market_cap_desc). -/
theorem c3_counterexample :
    (handleCurrencyChange "GBP" initialState).currency ≠ initialState.currency ∧
    ("vs_currency", "GBP") ∈ queryParams (handleCurrencyChange "GBP" initialState) ∧
    (handleSortOrderChange "bogus" initialState).sortOrder ≠ initialState.sortOrder := by
  decide

/-- C3 amended: handleCurrencyChange stores any given string verbatim
and that string appears in the dispatched query, while
handleSortOrderChange coerces every input into the enumerated sort set
(mapping any non-descending value to market_cap_asc, not to the current
value); only the UI selects restrict the inputs to the enumerations. -/
theorem c3_amended_validation (v : String) (s : AppState) :
    (handleCurrencyChange v s).currency = v ∧
    ("vs_currency", v) ∈ queryParams (handleCurrencyChange v s) ∧
    ((handleSortOrderChange v s).sortOrder = "market_cap_desc" ∨
      (handleSortOrderChange v s).sortOrder = "market_cap_asc") := by
  refine ⟨rfl, ?_, ?_⟩
  · simp [queryParams, handleCurrencyChange]
  · by_cases h : v = "market_cap_desc" <;> simp [handleSortOrderChange, h]

/-- C4: a failed fetch records the error message and leaves the
displayed instrument list untouched, and the error banner renders only
when the current result set is empty — in particular not while a
previous nonempty result set is still displayed. -/
theorem c4_failure_keeps_data (s : AppState) :
    (applyFetchFailure s).coins = s.coins ∧
    (applyFetchFailure s).error = some fetchErrorMessage ∧
    (∀ t : AppState, errorMessageShown t = true → t.coins = []) ∧
    (s.coins ≠ [] → errorMessageShown (applyFetchFailure s) = false) := by
  refine ⟨rfl, rfl, ?_, ?_⟩
  · intro t ht
    simp only [errorMessageShown, Bool.and_eq_true, decide_eq_true_eq] at ht
    exact List.length_eq_zero.mp (Nat.lt_one_iff.mp ht.1)
  · intro h
    have hlen : s.coins.length ≠ 0 := by simpa using h
    simp only [errorMessageShown, applyFetchFailure, Option.isSome_some,
      Bool.and_true, decide_eq_false_iff_not]
    omega

/-- C4 witness: with ten instruments displayed, a failure keeps them
and shows no banner; and a state in which the banner does render has an
empty list. -/
theorem c4_witness :
    stateWithTen.coins ≠ [] ∧
    (applyFetchFailure stateWithTen).coins = stateWithTen.coins ∧
    errorMessageShown (applyFetchFailure stateWithTen) = false ∧
    errorMessageShown (applyFetchFailure initialState) = true ∧
    (applyFetchFailure initialState).coins = [] := by
  refine ⟨by decide, (c4_failure_keeps_data stateWithTen).1,
    (c4_failure_keeps_data stateWithTen).2.2.2 (by decide), by decide,
    (c4_failure_keeps_data initialState).2.2.1 (applyFetchFailure initialState) (by decide)⟩

/-- C5: a table change updates page number and page size in a single
transition, so the one descriptor computed after it carries both new
values; no descriptor with only one of the two updated exists. -/
theorem c5_page_size_atomic (s : AppState) (cur sz : ℕ) :
    (handleTableChange ⟨some cur, some sz⟩ s).currentPage = cur ∧
    (handleTableChange ⟨some cur, some sz⟩ s).perPage = sz ∧
    ("page", toString cur) ∈ queryParams (handleTableChange ⟨some cur, some sz⟩ s) ∧
    ("per_page", toString sz) ∈ queryParams (handleTableChange ⟨some cur, some sz⟩ s) := by
  refine ⟨rfl, rfl, ?_, ?_⟩ <;> simp [queryParams, handleTableChange]

/-- C6: invoking any setter with the current value of its field leaves
the fetch-effect dependency tuple unchanged, so no new dispatch occurs;
and states with equal dependency tuples produce identical descriptors,
so the dependency gate coincides with descriptor comparison. -/
theorem c6_noop_setter_no_dispatch (s : AppState)
    (h : s.sortOrder = "market_cap_desc" ∨ s.sortOrder = "market_cap_asc") :
    ¬ dispatchOccurs s (handleCurrencyChange s.currency s) ∧
    ¬ dispatchOccurs s (handleSortOrderChange s.sortOrder s) ∧
    ¬ dispatchOccurs s (handleTableChange ⟨some s.currentPage, some s.perPage⟩ s) ∧
    ¬ dispatchOccurs s (setSearchString s.searchString s) ∧
    (∀ t u : AppState, fetchDeps t = fetchDeps u → queryParams t = queryParams u) := by
  refine ⟨?_, ?_, ?_, ?_, ?_⟩
  · simp [dispatchOccurs, fetchDeps, handleCurrencyChange]
  · rcases h with h | h <;> simp [dispatchOccurs, fetchDeps, handleSortOrderChange, h]
  · simp [dispatchOccurs, fetchDeps, handleTableChange]
  · simp [dispatchOccurs, fetchDeps, setSearchString]
  · intro t u htu
    simp only [fetchDeps, Prod.mk.injEq] at htu
    obtain ⟨h1, h2, h3, h4, h5⟩ := htu
    simp [queryParams, h1, h2, h3, h4, h5]

/-- C6 witness: at the initial state the sort order is in the
enumeration and re-setting the current currency dispatches nothing. -/
theorem c6_witness :
    (initialState.sortOrder = "market_cap_desc" ∨
      initialState.sortOrder = "market_cap_asc") ∧
    ¬ dispatchOccurs initialState
      (handleCurrencyChange initialState.currency initialState) ∧
    queryParams initialState = queryParams initialState := by
  exact ⟨Or.inl rfl,
    (c6_noop_setter_no_dispatch initialState (Or.inl rfl)).1,
    (c6_noop_setter_no_dispatch initialState (Or.inl rfl)).2.2.2.2
      initialState initialState rfl⟩

/-- C7: pressing Search resolves the typed input by exact
case-insensitive name lookup: when the catalog splits around a first
matching entry, that entry's identifier is committed; when nothing
matches, the empty string (the no-filter value) is committed, and no
error state is produced. -/
theorem c7_exact_name_lookup (s : AppState) (pre post : List AllCoins) (c : AllCoins)
    (hsplit : s.allCoins = pre ++ c :: post)
    (hc : jsToLower c.name = jsToLower s.searchInput)
    (hpre : ∀ x ∈ pre, jsToLower x.name ≠ jsToLower s.searchInput) :
    (handleSearch s).searchString = c.id ∧
    (∀ t : AppState, (∀ x ∈ t.allCoins, jsToLower x.name ≠ jsToLower t.searchInput) →
      (handleSearch t).searchString = "") := by
  constructor
  · have hfind : s.allCoins.find?
        (fun x => jsToLower x.name == jsToLower s.searchInput) = some c := by
      rw [hsplit]
      apply find_first_of_append
      · intro x hx
        simpa using hpre x hx
      · simpa using hc
    simp [handleSearch, hfind]
  · intro t ht
    have hfind : t.allCoins.find?
        (fun x => jsToLower x.name == jsToLower t.searchInput) = none := by
      apply List.find?_eq_none.mpr
      intro x hx
      simpa using ht x hx
    simp [handleSearch, hfind]

/-- C7 witness: searching for bitcoin in the sample catalog commits the
identifier of the first (and matching) entry, and searching for a name
absent from the catalog commits the empty string. -/
theorem c7_witness :
    (handleSearch stateSearchHit).searchString = "bitcoin" ∧
    (handleSearch stateSearchMiss).searchString = "" := by
  exact ⟨(c7_exact_name_lookup stateSearchHit [] [entryBch, entryEth] entryBtc
      rfl (by decide) (by simp)).1,
    (c7_exact_name_lookup stateSearchHit [] [entryBch, entryEth] entryBtc
      rfl (by decide) (by simp)).2 stateSearchMiss (by decide)⟩

/-- C8 counterexample: for the whitespace prefix, the catalog entry
whose name begins with a space is a case-insensitive prefix match yet
the suggestion list comes back empty, because the handler empties the
list whenever the trimmed input is empty. -/
theorem c8_counterexample :
    (handleInputChange " " stateSpace).filteredOptions = [] ∧
    entrySpace ∈ stateSpace.allCoins ∧
    jsStartsWith (jsToLower entrySpace.name) (jsToLower " ") = true := by
  decide

/-- C8 amended: when the trimmed input is empty (the empty prefix and
whitespace-only prefixes alike) the suggestion list is empty; for any
other prefix the suggestions are exactly the catalog entries whose
lowercased name starts with the lowercased prefix, in catalog order. -/
theorem c8_amended_suggestion_lookup (v : String) (s : AppState) :
    (jsTrim v = "" → (handleInputChange v s).filteredOptions = []) ∧
    (jsTrim v ≠ "" →
      (∀ c : AllCoins, c ∈ (handleInputChange v s).filteredOptions ↔
        c ∈ s.allCoins ∧ jsStartsWith (jsToLower c.name) (jsToLower v) = true) ∧
      (handleInputChange v s).filteredOptions.Sublist s.allCoins) ∧
    (handleInputChange v s).searchInput = v := by
  refine ⟨?_, ?_, rfl⟩
  · intro h
    simp [handleInputChange, h]
  · intro h
    constructor
    · intro c
      simp [handleInputChange, h, List.mem_filter]
    · simp only [handleInputChange, h, if_false]
      exact List.filter_sublist _

/-- C8 witness: the prefix Bit matches the Bitcoin entry in the sample
catalog, and the empty prefix yields the empty suggestion list. -/
theorem c8_witness :
    jsTrim "Bit" ≠ "" ∧
    (entryBtc ∈ (handleInputChange "Bit" stateSearchHit).filteredOptions ↔
      entryBtc ∈ stateSearchHit.allCoins ∧
      jsStartsWith (jsToLower entryBtc.name) (jsToLower "Bit") = true) ∧
    jsTrim "" = "" ∧
    (handleInputChange "" stateSearchHit).filteredOptions = [] := by
  refine ⟨by decide,
    ((c8_amended_suggestion_lookup "Bit" stateSearchHit).2.1 (by decide)).1 entryBtc,
    by decide,
    (c8_amended_suggestion_lookup "" stateSearchHit).1 (by decide)⟩

/-- C9 counterexample: a record whose percentage field is missing is
rendered as a red down arrow with NaN magnitude, which differs from the
rendering of the value zero — the missing field is not treated as the
additive identity. -/
theorem c9_counterexample :
    renderPriceChangePct none ≠ renderPriceChangePct (some 0) ∧
    renderPriceChangePct none = ("red", "↓", JSNum.nan) := by
  decide

/-- C9 amended: a missing percentage field is tolerated without
failure, but under JavaScript semantics the comparison with zero is
false and Math.abs gives NaN, so the cell renders a red down arrow with
NaN magnitude — an output no present numeric value ever produces, and
in particular not the rendering of zero. -/
theorem c9_amended_missing_renders_nan (c : Coin)
    (h : c.price_change_percentage_24h = none) :
    renderPriceChangePct c.price_change_percentage_24h = ("red", "↓", JSNum.nan) ∧
    (∀ q : ℚ, renderPriceChangePct c.price_change_percentage_24h ≠
      renderPriceChangePct (some q)) := by
  rw [h]
  refine ⟨rfl, ?_⟩
  intro q hq
  have hmag := congrArg (fun t => t.2.2) hq
  simp [renderPriceChangePct, jsAbs] at hmag

/-- C9 witness: the sample record with an omitted percentage field
renders as the NaN cell and differs from the rendering of zero. -/
theorem c9_witness :
    coinNoPct.price_change_percentage_24h = none ∧
    renderPriceChangePct coinNoPct.price_change_percentage_24h =
      ("red", "↓", JSNum.nan) ∧
    renderPriceChangePct coinNoPct.price_change_percentage_24h ≠
      renderPriceChangePct (some 0) := by
  exact ⟨rfl, (c9_amended_missing_renders_nan coinNoPct rfl).1,
    (c9_amended_missing_renders_nan coinNoPct rfl).2 0⟩

/-- C10: a successful fetch replaces the instrument list wholesale by
the response body and resets the error to none, so after any success
the error banner does not render. -/
theorem c10_success_resets_error (data : List Coin) (s : AppState) :
    (applyFetchSuccess data s).coins = data ∧
    (applyFetchSuccess data s).error = none ∧
    errorMessageShown (applyFetchSuccess data s) = false := by
  refine ⟨rfl, rfl, ?_⟩
  simp [errorMessageShown, applyFetchSuccess]
